import Mathlib

/-!
Verification development for the episodic IPD (iterated prisoner's dilemma)
engine `episodic_ipd_game.py` and the ETL loader `forgedb.py`.

The game engine is embedded shallowly: the two LLM backends are modelled as
deterministic oracles (`AgentBehavior`) receiving exactly the data the source
passes to `_get_agent_decision_with_retry` / `_get_reflection`; the engine's
bookkeeping (payoffs, scores, histories, episode records, the final results
document) is translated function by function from the source.  Python `print`
side effects are modelled only where a claim is about them (the forced-fallback
diagnostics, and the context-management calls on the agent sessions, which are
recorded as an operation trace).  Python float division for cooperation rates
is modelled with exact rationals.
-/

namespace IPD

/-- The two possible actions, the closed enumeration used throughout the
source (the strings COOPERATE and DEFECT). -/
inductive Action where
  | COOPERATE : Action
  | DEFECT : Action
deriving DecidableEq, Repr

/-- One entry of a per-agent episode history, mirroring the dictionaries
appended in `play_round` (keys my_action, opp_action, my_payoff, opp_payoff). -/
structure HistEntry where
  my_action : Action
  opp_action : Action
  my_payoff : Int
  opp_payoff : Int
deriving DecidableEq, Repr

/-- The per-round record dictionary built by `play_round` (key round is the
1-based round number; episode scores are the cumulative scores after this
round). -/
structure RoundData where
  round : Nat
  agent_0_action : Action
  agent_1_action : Action
  agent_0_reasoning : String
  agent_1_reasoning : String
  agent_0_payoff : Int
  agent_1_payoff : Int
  agent_0_episode_score : Int
  agent_1_episode_score : Int
deriving DecidableEq, Repr

/-- Modelled from the spec: `config.py` is not under src/, so the
`EpisodeConfig` record is reconstructed from the spec's Configuration section.
Only the fields the engine's bookkeeping reads are modelled; fields that are
merely printed or copied into the results snapshot (temperature, model and
host identifiers, token limits, timeout, retry budget, verbosity) are omitted,
and the four-key payoff dictionary is a total function over the closed
`Action` enumeration. -/
structure EpisodeConfig where
  num_episodes : Nat
  rounds_per_episode : Nat
  history_window_size : Nat
  payoff_matrix : Action → Action → Int × Int
  reset_conversation_between_episodes : Bool

/-- Modelled from the spec: `config.py` is not under src/.  The total number
of rounds of a game, `num_episodes * rounds_per_episode`, exposed by the
configuration as `total_rounds`. -/
def EpisodeConfig.total_rounds (c : EpisodeConfig) : Nat :=
  c.num_episodes * c.rounds_per_episode

/-- Modelled from the spec: `config.py` is not under src/.  `validate` checks
that all counts are positive (the payoff matrix is total by type). -/
def EpisodeConfig.validateOk (c : EpisodeConfig) : Bool :=
  0 < c.num_episodes && 0 < c.rounds_per_episode && 0 < c.history_window_size

/-- One agent's backend, modelled as a deterministic oracle.  `decide` is the
composite `generate_with_forced_decision(format_round_prompt(...))` of
`_get_agent_decision_with_retry`: it receives the round number, episode
number, this agent's episode history, the two cumulative episode scores (the
history window is applied inside the external prompt renderer and is absorbed
into the oracle), and returns the extracted decision (or `none` when the
entire retry ladder failed) together with the raw response text; the empty
string models a falsy (empty or missing) Python response.  `reflect` is the
composite `generate(format_episode_reflection_prompt(...))` of
`_get_reflection`, returning `none` when the backend produced no text. -/
structure AgentBehavior where
  decide : Nat → Nat → List HistEntry → Int → Int → Option Action × String
  reflect : Nat → List HistEntry → Int → Int → Option String

/-- Python's `s or d` for strings: `d` when `s` is falsy (empty), else `s`. -/
def pyStrOr (s d : String) : String :=
  if s = "" then d else s

/-- Embedding of `_get_agent_decision_with_retry`: ask the oracle once
(the retry ladder is internal to the missing `ollama_agent.py`, behind
`generate_with_forced_decision`); when the decision is `none`, substitute
DEFECT and record `response or "Failed to respond after retries"` as the
reasoning, exactly as the source's fallback return does. -/
def getAgentDecisionWithRetry (b : AgentBehavior) (round_num episode_num : Nat)
    (history : List HistEntry) (my_score opp_score : Int) : Action × String :=
  let dr := b.decide round_num episode_num history my_score opp_score
  match dr.1 with
  | none => (Action.DEFECT, pyStrOr dr.2 ("Failed to respond after retries"))
  | some d => (d, dr.2)

/-- The diagnostic lines `_get_agent_decision_with_retry` prints: empty on a
successful decision; on a forced fallback, the loud CRITICAL block, plus the
truncated last response when it is non-empty. -/
def criticalDiagnostics (b : AgentBehavior) (round_num episode_num : Nat)
    (history : List HistEntry) (my_score opp_score : Int) : List String :=
  let dr := b.decide round_num episode_num history my_score opp_score
  match dr.1 with
  | none =>
      ["CRITICAL: agent failed to provide decision after all retries",
       "This violates game-theoretic requirements",
       "Defaulting to DEFECT, but this should be investigated"]
      ++ (if dr.2 = "" then [] else ["Last response: " ++ dr.2.take 200 ++ "..."])
  | some _ => []

/-- Embedding of `_get_reflection`: one backend call; `none` is replaced by
the fixed sentinel string. -/
def getReflection (b : AgentBehavior) (episode_num : Nat)
    (history : List HistEntry) (my_score opp_score : Int) : String :=
  match b.reflect episode_num history my_score opp_score with
  | none => "Agent failed to provide reflection"
  | some t => t

/-- The state `play_round` returns and the updates it makes to its caller's
mutable state (`episode_history_0/1`, `episode_scores`, `self.total_scores`),
made explicit. -/
structure RoundResult where
  action_0 : Action
  action_1 : Action
  round_data : RoundData
  history_0 : List HistEntry
  history_1 : List HistEntry
  episode_scores : Int × Int
  total_scores : Int × Int
deriving Repr

/-- Embedding of `play_round`: sequentially get both decisions, look up the
payoff pair, add it to the episode and total scores, append the two mirrored
history entries, and build the round record (with 1-based round number and
the post-update cumulative episode scores). -/
def play_round (cfg : EpisodeConfig) (b0 b1 : AgentBehavior)
    (round_num episode_num : Nat)
    (history_0 history_1 : List HistEntry)
    (episode_scores total_scores : Int × Int) : RoundResult :=
  let d0 := getAgentDecisionWithRetry b0 round_num episode_num history_0
    episode_scores.1 episode_scores.2
  let d1 := getAgentDecisionWithRetry b1 round_num episode_num history_1
    episode_scores.2 episode_scores.1
  let p := cfg.payoff_matrix d0.1 d1.1
  let episode_scores' : Int × Int := (episode_scores.1 + p.1, episode_scores.2 + p.2)
  let total_scores' : Int × Int := (total_scores.1 + p.1, total_scores.2 + p.2)
  let history_0' := history_0 ++ [⟨d0.1, d1.1, p.1, p.2⟩]
  let history_1' := history_1 ++ [⟨d1.1, d0.1, p.2, p.1⟩]
  let rd : RoundData :=
    { round := round_num + 1
      agent_0_action := d0.1
      agent_1_action := d1.1
      agent_0_reasoning := d0.2
      agent_1_reasoning := d1.2
      agent_0_payoff := p.1
      agent_1_payoff := p.2
      agent_0_episode_score := episode_scores'.1
      agent_1_episode_score := episode_scores'.2 }
  ⟨d0.1, d1.1, rd, history_0', history_1', episode_scores', total_scores'⟩

/-- The episode-local state threaded through the round loop of
`play_episode` (`episode_history_0/1`, `episode_scores`, `round_details`)
together with the game-level `total_scores`. -/
structure RoundLoopState where
  history_0 : List HistEntry
  history_1 : List HistEntry
  episode_scores : Int × Int
  total_scores : Int × Int
  round_details : List RoundData
deriving Repr

/-- One iteration of the round loop of `play_episode`. -/
def roundStep (cfg : EpisodeConfig) (b0 b1 : AgentBehavior)
    (episode_num round_num : Nat) (st : RoundLoopState) : RoundLoopState :=
  let r := play_round cfg b0 b1 round_num episode_num st.history_0 st.history_1
    st.episode_scores st.total_scores
  { history_0 := r.history_0
    history_1 := r.history_1
    episode_scores := r.episode_scores
    total_scores := r.total_scores
    round_details := st.round_details ++ [r.round_data] }

/-- The round loop `for round_num in range(rounds_per_episode)` of
`play_episode`, run for `n` iterations. -/
def playRounds (cfg : EpisodeConfig) (b0 b1 : AgentBehavior)
    (episode_num n : Nat) (st : RoundLoopState) : RoundLoopState :=
  (List.range n).foldl (fun s r => roundStep cfg b0 b1 episode_num r s) st

/-- The fresh episode-local state `play_episode` initializes, with the
game-level total scores carried in. -/
def initRoundState (t : Int × Int) : RoundLoopState :=
  ⟨[], [], (0, 0), t, []⟩

/-- The per-agent block of an episode record (`agent_0` / `agent_1` in the
episode dictionary).  `cooperation_rate` is Python float division
`coop / rounds_per_episode`, modelled exactly over the rationals. -/
structure AgentEpisodeStats where
  episode_score : Int
  cooperations : Nat
  cooperation_rate : ℚ
  reflection : String
deriving DecidableEq, Repr

/-- The episode dictionary `play_episode` returns (key episode is the 1-based
episode number). -/
structure EpisodeData where
  episode : Nat
  rounds : List RoundData
  agent_0 : AgentEpisodeStats
  agent_1 : AgentEpisodeStats
deriving DecidableEq, Repr

/-- A context-management call made on an agent session by the episode engine:
`reset_conversation(keep_system_prompt)` or
`add_reflection_to_context(text)`. -/
inductive SessionOp where
  | reset (keep_system_prompt : Bool) : SessionOp
  | appendContext (text : String) : SessionOp
deriving DecidableEq, Repr

/-- The reflection context string reinjected after a reset:
`PREVIOUS PERIOD <n+1> REFLECTION:` followed by the reflection text. -/
def reflectionContext (episode_num : Nat) (reflection : String) : String :=
  "PREVIOUS PERIOD " ++ toString (episode_num + 1) ++ " REFLECTION:\n"
    ++ reflection ++ "\n"

/-- Everything `play_episode` produces: the episode record it returns, the
updated game-level total scores, and the trace of context-management calls it
made on each agent session. -/
structure EpisodeOutcome where
  episode_data : EpisodeData
  total_scores : Int × Int
  ops_0 : List SessionOp
  ops_1 : List SessionOp

/-- Embedding of `play_episode`: run the round loop from fresh episode state,
count cooperations over each agent's history, get both reflections, apply the
context-reset policy (recorded as a `SessionOp` trace), and assemble the
episode record. -/
def play_episode (cfg : EpisodeConfig) (b0 b1 : AgentBehavior)
    (episode_num : Nat) (total_scores : Int × Int) : EpisodeOutcome :=
  let st := playRounds cfg b0 b1 episode_num cfg.rounds_per_episode
    (initRoundState total_scores)
  let coop_0 := (st.history_0.filter (fun r => r.my_action = Action.COOPERATE)).length
  let coop_1 := (st.history_1.filter (fun r => r.my_action = Action.COOPERATE)).length
  let reflection_0 := getReflection b0 episode_num st.history_0
    st.episode_scores.1 st.episode_scores.2
  let reflection_1 := getReflection b1 episode_num st.history_1
    st.episode_scores.2 st.episode_scores.1
  let ops_0 := if cfg.reset_conversation_between_episodes then
      [SessionOp.reset true,
       SessionOp.appendContext (reflectionContext episode_num reflection_0)]
    else []
  let ops_1 := if cfg.reset_conversation_between_episodes then
      [SessionOp.reset true,
       SessionOp.appendContext (reflectionContext episode_num reflection_1)]
    else []
  { episode_data :=
      { episode := episode_num + 1
        rounds := st.round_details
        agent_0 :=
          { episode_score := st.episode_scores.1
            cooperations := coop_0
            cooperation_rate := (coop_0 : ℚ) / (cfg.rounds_per_episode : ℚ)
            reflection := reflection_0 }
        agent_1 :=
          { episode_score := st.episode_scores.2
            cooperations := coop_1
            cooperation_rate := (coop_1 : ℚ) / (cfg.rounds_per_episode : ℚ)
            reflection := reflection_1 } }
    total_scores := st.total_scores
    ops_0 := ops_0
    ops_1 := ops_1 }

/-- The per-agent block of the final results dictionary. -/
structure AgentGameStats where
  total_score : Int
  total_cooperations : Nat
  overall_cooperation_rate : ℚ
deriving DecidableEq, Repr

/-- The final results dictionary assembled by `play_game` (environment
metadata such as timestamp, hostname, username and elapsed time is outside
the deterministic bookkeeping and is not modelled; the configuration snapshot
is carried as the configuration itself). -/
structure GameResults where
  agent_0 : AgentGameStats
  agent_1 : AgentGameStats
  episodes : List EpisodeData

/-- The episode loop `for episode_num in range(num_episodes)` of `play_game`,
run for `n` iterations: threads `total_scores` and accumulates
`all_episodes`. -/
def playEpisodes (cfg : EpisodeConfig) (b0 b1 : AgentBehavior) (n : Nat) :
    (Int × Int) × List EpisodeData :=
  (List.range n).foldl
    (fun acc e =>
      let out := play_episode cfg b0 b1 e acc.1
      (out.total_scores, acc.2 ++ [out.episode_data]))
    ((0, 0), [])

/-- Embedding of `play_game`: run all episodes, sum the per-episode
cooperation counts, and assemble the results with the overall cooperation
rates `total_coop / total_rounds` (Python float division, modelled over the
rationals). -/
def play_game (cfg : EpisodeConfig) (b0 b1 : AgentBehavior) : GameResults :=
  let r := playEpisodes cfg b0 b1 cfg.num_episodes
  let total_coop_0 := (r.2.map (fun ep => ep.agent_0.cooperations)).sum
  let total_coop_1 := (r.2.map (fun ep => ep.agent_1.cooperations)).sum
  { agent_0 :=
      { total_score := r.1.1
        total_cooperations := total_coop_0
        overall_cooperation_rate := (total_coop_0 : ℚ) / (cfg.total_rounds : ℚ) }
    agent_1 :=
      { total_score := r.1.2
        total_cooperations := total_coop_1
        overall_cooperation_rate := (total_coop_1 : ℚ) / (cfg.total_rounds : ℚ) }
    episodes := r.2 }

/-- The game object: two agent sessions and the validated configuration. -/
structure EpisodicIPDGame where
  agent_0 : AgentBehavior
  agent_1 : AgentBehavior
  config : EpisodeConfig

/-- Embedding of `EpisodicIPDGame.__init__`: `config.validate()` runs at
construction, before any episode, and a validation failure propagates as a
configuration error. -/
def EpisodicIPDGame.init (a0 a1 : AgentBehavior) (cfg : EpisodeConfig) :
    Except String EpisodicIPDGame :=
  if cfg.validateOk then Except.ok ⟨a0, a1, cfg⟩
  else Except.error ("Configuration validation failed")

/-- The classic prisoner's-dilemma payoff matrix of the spec's end-to-end
scenario: (C,C) gives (3,3); (C,D) gives (0,5); (D,C) gives (5,0); (D,D)
gives (1,1). -/
def pdMatrix : Action → Action → Int × Int
  | Action.COOPERATE, Action.COOPERATE => (3, 3)
  | Action.COOPERATE, Action.DEFECT => (0, 5)
  | Action.DEFECT, Action.COOPERATE => (5, 0)
  | Action.DEFECT, Action.DEFECT => (1, 1)

/-- The configuration of the spec's end-to-end scenario: 2 episodes of 3
rounds. -/
def cfg2 : EpisodeConfig :=
  { num_episodes := 2
    rounds_per_episode := 3
    history_window_size := 10
    payoff_matrix := pdMatrix
    reset_conversation_between_episodes := true }

/-- An agent whose decisions follow a fixed per-episode script indexed by
round number (the same in every episode), always with an extractable
decision while the script lasts. -/
def scripted (script : List Action) : AgentBehavior :=
  { decide := fun round_num _ _ _ _ => (script.get? round_num, "scripted response")
    reflect := fun _ _ _ _ => some ("scripted reflection") }

/-- The first scripted agent of the end-to-end scenario. -/
def scriptA : AgentBehavior :=
  scripted [Action.COOPERATE, Action.COOPERATE, Action.DEFECT]

/-- The second scripted agent of the end-to-end scenario. -/
def scriptB : AgentBehavior :=
  scripted [Action.COOPERATE, Action.DEFECT, Action.DEFECT]

/-- An agent whose backend never yields an extractable decision and whose
raw response is empty, and which never produces a reflection. -/
def failingAgent : AgentBehavior :=
  { decide := fun _ _ _ _ _ => (none, "")
    reflect := fun _ _ _ _ => none }

/-- An agent whose backend never yields an extractable decision but always
returns the same non-empty prose response, and which never produces a
reflection. -/
def stubbornAgent : AgentBehavior :=
  { decide := fun _ _ _ _ _ => (none, "I refuse to answer with a single word")
    reflect := fun _ _ _ _ => none }

/-- Agent 0's view of a round record: the history entry `play_round` appends
to `episode_history_0`. -/
def histView0 (rd : RoundData) : HistEntry :=
  ⟨rd.agent_0_action, rd.agent_1_action, rd.agent_0_payoff, rd.agent_1_payoff⟩

/-- Agent 1's view of a round record: the history entry `play_round` appends
to `episode_history_1`. -/
def histView1 (rd : RoundData) : HistEntry :=
  ⟨rd.agent_1_action, rd.agent_0_action, rd.agent_1_payoff, rd.agent_0_payoff⟩

/-- Invariant of the round loop of `play_episode`, starting from the fresh
episode state with carried-in total scores `t`: after `n` rounds, the
histories are the two mirror projections of the recorded rounds, the episode
scores are the per-agent payoff sums, the total scores grew by exactly the
episode scores, and the recorded round numbers are 1..n in order. -/
def RoundLoopInv (t : Int × Int) (n : Nat) (st : RoundLoopState) : Prop :=
  st.round_details.length = n ∧
  st.history_0 = st.round_details.map histView0 ∧
  st.history_1 = st.round_details.map histView1 ∧
  st.episode_scores.1 = (st.round_details.map RoundData.agent_0_payoff).sum ∧
  st.episode_scores.2 = (st.round_details.map RoundData.agent_1_payoff).sum ∧
  st.total_scores.1 = t.1 + st.episode_scores.1 ∧
  st.total_scores.2 = t.2 + st.episode_scores.2 ∧
  st.round_details.map RoundData.round = (List.range n).map (fun j => j + 1)

/-- The shape every episode record produced by `play_episode` has: full round
count, 1-based increasing round numbers, episode scores equal to payoff sums,
cooperation counts bounded by the round count, and cooperation rates equal to
`cooperations / rounds_per_episode`. -/
def EpisodeWellFormed (cfg : EpisodeConfig) (ep : EpisodeData) : Prop :=
  ep.rounds.length = cfg.rounds_per_episode ∧
  ep.rounds.map RoundData.round
    = (List.range cfg.rounds_per_episode).map (fun j => j + 1) ∧
  ep.agent_0.episode_score = (ep.rounds.map RoundData.agent_0_payoff).sum ∧
  ep.agent_1.episode_score = (ep.rounds.map RoundData.agent_1_payoff).sum ∧
  ep.agent_0.cooperations ≤ cfg.rounds_per_episode ∧
  ep.agent_1.cooperations ≤ cfg.rounds_per_episode ∧
  ep.agent_0.cooperation_rate
    = (ep.agent_0.cooperations : ℚ) / (cfg.rounds_per_episode : ℚ) ∧
  ep.agent_1.cooperation_rate
    = (ep.agent_1.cooperations : ℚ) / (cfg.rounds_per_episode : ℚ)

/-- Invariant of the episode loop of `play_game`: after `n` episodes the
accumulated list holds `n` well-formed episode records carrying episode
numbers 1..n, and the running totals are the sums of the per-episode
scores. -/
def GameLoopInv (cfg : EpisodeConfig) (n : Nat)
    (r : (Int × Int) × List EpisodeData) : Prop :=
  r.2.length = n ∧
  r.1.1 = (r.2.map (fun ep => ep.agent_0.episode_score)).sum ∧
  r.1.2 = (r.2.map (fun ep => ep.agent_1.episode_score)).sum ∧
  r.2.map EpisodeData.episode = (List.range n).map (fun j => j + 1) ∧
  ∀ ep ∈ r.2, EpisodeWellFormed cfg ep

/-!
ETL loader `forgedb.py`.  `load_json` runs inside one psycopg transaction:
every INSERT goes into the open transaction, `conn.commit()` publishes it,
and both `except` arms call `conn.rollback()`, so a failed ingest leaves the
database exactly as it was.  The transaction is modelled by running the body
as a pure `Except` computation on a working copy of the database state:
`commit` keeps the final copy, `rollback` keeps the original.
-/

/-- The config block of a result document as read by `load_json`
(`data['config'][...]`).  The float field temperature is outside the scope of
this embedding and is omitted; every other inserted config key is carried. -/
structure ConfigSnapshot where
  num_episodes : Nat
  rounds_per_episode : Nat
  total_rounds : Nat
  history_window_size : Nat
  reset_between_episodes : Bool
  reflection_type : String
  model_0 : String
  model_1 : String
  decision_token_limit : Nat
  reflection_token_limit : Nat
  http_timeout : Nat
  force_decision_retries : Nat
deriving DecidableEq, Repr

/-- A parsed result document as `load_json` reads it.  Accesses written
`data['key']` raise KeyError when the key is absent (the loader explicitly
supports older file versions with missing fields); this is modelled for the
`timestamp` and `config` accesses via `Option`, while the remaining required
fields are carried as total record fields.  `data.get(...)` accesses
(hostname, username, host_0, host_1) are total and modelled with `Option`
plus a default. -/
structure ResultDoc where
  timestamp : Option String
  hostname : Option String
  username : Option String
  elapsed_seconds : ℚ
  config : Option ConfigSnapshot
  system_prompt : String
  reflection_template : String
  agent_0 : AgentGameStats
  agent_1 : AgentGameStats
  model_0 : String
  model_1 : String
  host_0 : Option String
  host_1 : Option String
  episodes : List EpisodeData
deriving DecidableEq, Repr

/-- A row of `ipd2.results`; `raw_json` is the document stored verbatim. -/
structure ResultsRow where
  results_id : Nat
  filename : String
  username : String
  raw_json : ResultDoc
deriving DecidableEq, Repr

/-- A row of `ipd2.llm_agents`. -/
structure AgentRow where
  results_id : Nat
  agent_idx : Nat
  host : Option String
  agent_model : String
  cfg_model : String
  total_score : Int
  total_cooperations : Nat
  overall_cooperation_rate : ℚ
deriving DecidableEq, Repr

/-- A row of `ipd2.episodes` with its generated serial key. -/
structure EpisodeRow where
  episode_id : Nat
  results_id : Nat
  agent_idx : Nat
  episode : Nat
  score : Int
  cooperations : Nat
  cooperation_rate : ℚ
  reflection : String
deriving DecidableEq, Repr

/-- A row of `ipd2.rounds`. -/
structure RoundRow where
  episode_id : Nat
  round : Nat
  action : Action
  payoff : Int
  ep_cumulative_score : Int
  reasoning : String
deriving DecidableEq, Repr

/-- The four warehouse tables touched by `load_json`, plus the two serial
sequences that generate `results_id` and `episode_id`. -/
structure DBState where
  results : List ResultsRow
  llm_agents : List AgentRow
  episodes : List EpisodeRow
  rounds : List RoundRow
  next_results_id : Nat
  next_episode_id : Nat
deriving DecidableEq, Repr

/-- The exceptions `load_json` distinguishes: psycopg's UniqueViolation
(caught and turned into a skip) and everything else (modelled by the KeyError
a `data['key']` access raises on an older document missing that key). -/
inductive DBErr where
  | uniqueViolation : DBErr
  | keyError (key : String) : DBErr
deriving DecidableEq, Repr

/-- What a `load_json` call does, seen from the caller: returns
`(results_id, researcher)` after a commit, returns None after a duplicate
skip, or re-raises the exception. -/
inductive LoadOutcome where
  | loaded (results_id : Nat) (researcher : String) : LoadOutcome
  | skipped : LoadOutcome
  | raised (e : DBErr) : LoadOutcome
deriving DecidableEq, Repr

/-- The field `data[agent_key]` of an episode block, for agent index 0 or
1. -/
def EpisodeData.agentOf (ep : EpisodeData) (i : Nat) : AgentEpisodeStats :=
  if i = 0 then ep.agent_0 else ep.agent_1

/-- The field `round_data[f'agent_i_action']`. -/
def RoundData.actionOf (rd : RoundData) (i : Nat) : Action :=
  if i = 0 then rd.agent_0_action else rd.agent_1_action

/-- The field `round_data[f'agent_i_payoff']`. -/
def RoundData.payoffOf (rd : RoundData) (i : Nat) : Int :=
  if i = 0 then rd.agent_0_payoff else rd.agent_1_payoff

/-- The field `round_data[f'agent_i_episode_score']`. -/
def RoundData.epScoreOf (rd : RoundData) (i : Nat) : Int :=
  if i = 0 then rd.agent_0_episode_score else rd.agent_1_episode_score

/-- The field `round_data[f'agent_i_reasoning']`. -/
def RoundData.reasoningOf (rd : RoundData) (i : Nat) : String :=
  if i = 0 then rd.agent_0_reasoning else rd.agent_1_reasoning

/-- The agent indices the `while f'agent_idx' in data` loops visit: a
document produced by `play_game` has exactly agents 0 and 1. -/
def docAgents : List Nat := [0, 1]

/-- The round INSERT loop for one episode/agent pair. -/
def insertRounds (episode_id : Nat) (agent_idx : Nat) (rds : List RoundData)
    (s : DBState) : DBState :=
  rds.foldl
    (fun s rd =>
      { s with rounds := s.rounds ++
          [⟨episode_id, rd.round, rd.actionOf agent_idx, rd.payoffOf agent_idx,
            rd.epScoreOf agent_idx, rd.reasoningOf agent_idx⟩] })
    s

/-- One episode INSERT (returning the generated `episode_id`) followed by the
round INSERTs for that episode/agent pair. -/
def insertEpisodeAgent (results_id : Nat) (ep : EpisodeData) (agent_idx : Nat)
    (s : DBState) : DBState :=
  let episode_id := s.next_episode_id
  let stats := ep.agentOf agent_idx
  let s1 : DBState :=
    { s with
        episodes := s.episodes ++
          [⟨episode_id, results_id, agent_idx, ep.episode, stats.episode_score,
            stats.cooperations, stats.cooperation_rate, stats.reflection⟩]
        next_episode_id := episode_id + 1 }
  insertRounds episode_id agent_idx ep.rounds s1

/-- The episode loop of `load_json`: for each episode block, one episode row
and its rounds per agent. -/
def insertEpisodes (results_id : Nat) (eps : List EpisodeData)
    (s : DBState) : DBState :=
  eps.foldl
    (fun s ep => docAgents.foldl (fun s i => insertEpisodeAgent results_id ep i s) s)
    s

/-- The `ipd2.llm_agents` INSERT loop over agents 0 and 1. -/
def insertAgents (results_id : Nat) (doc : ResultDoc) (cfgSnap : ConfigSnapshot)
    (s : DBState) : DBState :=
  { s with llm_agents := s.llm_agents ++
      [⟨results_id, 0, doc.host_0, doc.model_0, cfgSnap.model_0,
        doc.agent_0.total_score, doc.agent_0.total_cooperations,
        doc.agent_0.overall_cooperation_rate⟩,
       ⟨results_id, 1, doc.host_1, doc.model_1, cfgSnap.model_1,
        doc.agent_1.total_score, doc.agent_1.total_cooperations,
        doc.agent_1.overall_cooperation_rate⟩] }

/-- The transaction body of `load_json`, on a working copy of the state.
Modelled from the spec where it depends on the warehouse schema (which is
not under src/): the spec's contract is that re-ingesting an identical
result document is a skip, so the results table's unique constraint is
modelled as psycopg raising UniqueViolation on the results INSERT exactly
when an identical document is already stored.  The parameter dictionaries of
the INSERTs are built (raising KeyError on a missing required key) before
the statements execute, as in the source. -/
def loadJsonBody (pre : DBState) (filename : String) (doc : ResultDoc)
    (user_name : String) : Except DBErr (DBState × Nat × String) :=
  let researcher := doc.username.getD user_name
  match doc.timestamp with
  | none => Except.error (DBErr.keyError ("timestamp"))
  | some _ =>
    match doc.config with
    | none => Except.error (DBErr.keyError ("config"))
    | some cfgSnap =>
      if pre.results.any (fun row => decide (row.raw_json = doc)) then
        Except.error DBErr.uniqueViolation
      else
        let results_id := pre.next_results_id
        let s1 : DBState :=
          { pre with
              results := pre.results ++ [⟨results_id, filename, researcher, doc⟩]
              next_results_id := results_id + 1 }
        let s2 := insertAgents results_id doc cfgSnap s1
        let s3 := insertEpisodes results_id doc.episodes s2
        Except.ok (s3, results_id, researcher)

/-- Embedding of `load_json`: run the transaction body; on success commit and
return `(results_id, researcher)`; on UniqueViolation roll back, log a
warning, and return None (a skip); on any other exception roll back and
re-raise. -/
def load_json (pre : DBState) (filename : String) (doc : ResultDoc)
    (user_name : String) : DBState × LoadOutcome :=
  match loadJsonBody pre filename doc user_name with
  | Except.ok v => (v.1, LoadOutcome.loaded v.2.1 v.2.2)
  | Except.error DBErr.uniqueViolation => (pre, LoadOutcome.skipped)
  | Except.error (DBErr.keyError k) => (pre, LoadOutcome.raised (DBErr.keyError k))

/-- A minimal config block for concrete ETL inputs. -/
def cfgSnap0 : ConfigSnapshot :=
  { num_episodes := 2
    rounds_per_episode := 3
    total_rounds := 6
    history_window_size := 10
    reset_between_episodes := true
    reflection_type := "standard"
    model_0 := "llama3"
    model_1 := "llama3"
    decision_token_limit := 256
    reflection_token_limit := 1024
    http_timeout := 60
    force_decision_retries := 2 }

/-- A concrete small result document. -/
def doc0 : ResultDoc :=
  { timestamp := some ("2026-02-01T00:00:00")
    hostname := some ("tungsten")
    username := some ("techkgirl")
    elapsed_seconds := 12
    config := some cfgSnap0
    system_prompt := "You are playing a repeated game."
    reflection_template := ""
    agent_0 := { total_score := 8, total_cooperations := 4, overall_cooperation_rate := 4 / 6 }
    agent_1 := { total_score := 18, total_cooperations := 2, overall_cooperation_rate := 2 / 6 }
    model_0 := "llama3"
    model_1 := "llama3"
    host_0 := some ("tungsten")
    host_1 := some ("tungsten")
    episodes := [] }

/-- A database state that already holds `doc0`. -/
def pre0 : DBState :=
  { results := [⟨1, "episodic_game_1.json", "techkgirl", doc0⟩]
    llm_agents := []
    episodes := []
    rounds := []
    next_results_id := 2
    next_episode_id := 1 }

/-- A configuration with an invalid (zero) episode count, rejected by
validation. -/
def cfgBad : EpisodeConfig :=
  { num_episodes := 0
    rounds_per_episode := 3
    history_window_size := 10
    payoff_matrix := pdMatrix
    reset_conversation_between_episodes := true }

theorem playRounds_succ (cfg : EpisodeConfig) (b0 b1 : AgentBehavior)
    (e n : Nat) (st : RoundLoopState) :
    playRounds cfg b0 b1 e (n + 1) st
      = roundStep cfg b0 b1 e n (playRounds cfg b0 b1 e n st) := by
  simp [playRounds, List.range_succ]

theorem playRounds_inv (cfg : EpisodeConfig) (b0 b1 : AgentBehavior)
    (e : Nat) (t : Int × Int) :
    ∀ n, RoundLoopInv t n (playRounds cfg b0 b1 e n (initRoundState t)) := by
  intro n
  induction n with
  | zero =>
      simp [playRounds, RoundLoopInv, initRoundState]
  | succ n ih =>
      obtain ⟨h1, h2, h3, h4, h5, h6, h7, h8⟩ := ih
      rw [playRounds_succ]
      refine ⟨?_, ?_, ?_, ?_, ?_, ?_, ?_, ?_⟩
      case _ => simp [roundStep, h1]
      case _ => simp [roundStep, play_round, histView0, h2]
      case _ => simp [roundStep, play_round, histView1, h3]
      case _ => simp [roundStep, play_round, h4]
      case _ => simp [roundStep, play_round, h5]
      case _ =>
        simp only [roundStep, play_round]
        simp [h6, add_assoc]
      case _ =>
        simp only [roundStep, play_round]
        simp [h7, add_assoc]
      case _ => simp [roundStep, play_round, h8, List.range_succ, h1]

theorem play_episode_wf (cfg : EpisodeConfig) (b0 b1 : AgentBehavior)
    (e : Nat) (t : Int × Int) :
    EpisodeWellFormed cfg (play_episode cfg b0 b1 e t).episode_data := by
  obtain ⟨h1, h2, h3, h4, h5, h6, h7, h8⟩ :=
    playRounds_inv cfg b0 b1 e t cfg.rounds_per_episode
  refine ⟨?_, ?_, ?_, ?_, ?_, ?_, ?_, ?_⟩
  case _ => simpa [play_episode] using h1
  case _ => simpa [play_episode] using h8
  case _ => simpa [play_episode] using h4
  case _ => simpa [play_episode] using h5
  case _ =>
      have hlen : (playRounds cfg b0 b1 e cfg.rounds_per_episode
          (initRoundState t)).history_0.length = cfg.rounds_per_episode := by
        rw [h2, List.length_map, h1]
      simp only [play_episode]
      calc ((playRounds cfg b0 b1 e cfg.rounds_per_episode
            (initRoundState t)).history_0.filter
              (fun r => decide (r.my_action = Action.COOPERATE))).length
          ≤ (playRounds cfg b0 b1 e cfg.rounds_per_episode
              (initRoundState t)).history_0.length := List.length_filter_le _ _
        _ = cfg.rounds_per_episode := hlen
  case _ =>
      have hlen : (playRounds cfg b0 b1 e cfg.rounds_per_episode
          (initRoundState t)).history_1.length = cfg.rounds_per_episode := by
        rw [h3, List.length_map, h1]
      simp only [play_episode]
      calc ((playRounds cfg b0 b1 e cfg.rounds_per_episode
            (initRoundState t)).history_1.filter
              (fun r => decide (r.my_action = Action.COOPERATE))).length
          ≤ (playRounds cfg b0 b1 e cfg.rounds_per_episode
              (initRoundState t)).history_1.length := List.length_filter_le _ _
        _ = cfg.rounds_per_episode := hlen
  case _ => simp [play_episode]
  case _ => simp [play_episode]

theorem play_episode_total_scores (cfg : EpisodeConfig) (b0 b1 : AgentBehavior)
    (e : Nat) (t : Int × Int) :
    (play_episode cfg b0 b1 e t).total_scores
      = (t.1 + (play_episode cfg b0 b1 e t).episode_data.agent_0.episode_score,
         t.2 + (play_episode cfg b0 b1 e t).episode_data.agent_1.episode_score) := by
  obtain ⟨h1, h2, h3, h4, h5, h6, h7, h8⟩ :=
    playRounds_inv cfg b0 b1 e t cfg.rounds_per_episode
  refine Prod.ext_iff.mpr ⟨?_, ?_⟩
  · simpa [play_episode] using h6
  · simpa [play_episode] using h7

theorem play_episode_num (cfg : EpisodeConfig) (b0 b1 : AgentBehavior)
    (e : Nat) (t : Int × Int) :
    (play_episode cfg b0 b1 e t).episode_data.episode = e + 1 := by
  simp [play_episode]

theorem playEpisodes_succ (cfg : EpisodeConfig) (b0 b1 : AgentBehavior)
    (n : Nat) :
    playEpisodes cfg b0 b1 (n + 1)
      = ((play_episode cfg b0 b1 n (playEpisodes cfg b0 b1 n).1).total_scores,
         (playEpisodes cfg b0 b1 n).2
           ++ [(play_episode cfg b0 b1 n (playEpisodes cfg b0 b1 n).1).episode_data]) := by
  simp [playEpisodes, List.range_succ]

theorem playEpisodes_inv (cfg : EpisodeConfig) (b0 b1 : AgentBehavior) :
    ∀ n, GameLoopInv cfg n (playEpisodes cfg b0 b1 n) := by
  intro n
  induction n with
  | zero => simp [playEpisodes, GameLoopInv]
  | succ n ih =>
      obtain ⟨h1, h2, h3, h4, h5⟩ := ih
      rw [playEpisodes_succ]
      refine ⟨?_, ?_, ?_, ?_, ?_⟩
      case _ => simp [h1]
      case _ => rw [play_episode_total_scores]; simp [h2]
      case _ => rw [play_episode_total_scores]; simp [h3]
      case _ => simp [h4, List.range_succ, h1, play_episode_num]
      case _ =>
        intro ep hep
        rcases List.mem_append.mp hep with h | h
        · exact h5 ep h
        · rw [List.mem_singleton.mp h]
          exact play_episode_wf cfg b0 b1 n (playEpisodes cfg b0 b1 n).1

/-- C1: Score conservation — for every completed episode, each agent's
episode score equals the sum of that agent's per-round payoffs across the
episode's rounds, and at game end each agent's total_score equals the sum of
that agent's episode scores across all episodes. -/
theorem c1_score_conservation (cfg : EpisodeConfig) (b0 b1 : AgentBehavior) :
    (∀ (e : Nat) (t : Int × Int),
      (play_episode cfg b0 b1 e t).episode_data.agent_0.episode_score
        = ((play_episode cfg b0 b1 e t).episode_data.rounds.map
            RoundData.agent_0_payoff).sum ∧
      (play_episode cfg b0 b1 e t).episode_data.agent_1.episode_score
        = ((play_episode cfg b0 b1 e t).episode_data.rounds.map
            RoundData.agent_1_payoff).sum) ∧
    (play_game cfg b0 b1).agent_0.total_score
      = ((play_game cfg b0 b1).episodes.map (fun ep => ep.agent_0.episode_score)).sum ∧
    (play_game cfg b0 b1).agent_1.total_score
      = ((play_game cfg b0 b1).episodes.map (fun ep => ep.agent_1.episode_score)).sum := by
  refine ⟨fun e t => ?_, ?_, ?_⟩
  · obtain ⟨_, _, hs0, hs1, _, _, _, _⟩ := play_episode_wf cfg b0 b1 e t
    exact ⟨hs0, hs1⟩
  · obtain ⟨_, h2, _, _, _⟩ := playEpisodes_inv cfg b0 b1 cfg.num_episodes
    simpa [play_game] using h2
  · obtain ⟨_, _, h3, _, _⟩ := playEpisodes_inv cfg b0 b1 cfg.num_episodes
    simpa [play_game] using h3

/-- C2: End-to-end scenario — with scripted agents [COOPERATE, COOPERATE,
DEFECT] and [COOPERATE, DEFECT, DEFECT], 2 episodes of 3 rounds, and the
classic matrix, every episode yields round payoffs (3,3),(0,5),(1,1),
episode scores (4,9), and cooperation counts (2,1). -/
theorem c2_end_to_end :
    ((play_game cfg2 scriptA scriptB).episodes.map
        (fun ep => ep.rounds.map (fun rd => (rd.agent_0_payoff, rd.agent_1_payoff))))
      = [[(3, 3), (0, 5), (1, 1)], [(3, 3), (0, 5), (1, 1)]] ∧
    ((play_game cfg2 scriptA scriptB).episodes.map
        (fun ep => (ep.agent_0.episode_score, ep.agent_1.episode_score)))
      = [(4, 9), (4, 9)] ∧
    ((play_game cfg2 scriptA scriptB).episodes.map
        (fun ep => (ep.agent_0.cooperations, ep.agent_1.cooperations)))
      = [(2, 1), (2, 1)] := by
  refine ⟨by decide, by decide, by decide⟩

/-- C10: The persisted result document uses 1-based indices — the episode
numbers across the game are 1..num_episodes in order, and within every
episode the recorded round numbers are 1..rounds_per_episode in increasing
order (each equal to its 0-based loop index plus one). -/
theorem c10_one_based_indices (cfg : EpisodeConfig) (b0 b1 : AgentBehavior) :
    (play_game cfg b0 b1).episodes.map EpisodeData.episode
      = (List.range cfg.num_episodes).map (fun j => j + 1) ∧
    (play_game cfg b0 b1).episodes.map (fun ep => ep.rounds.map RoundData.round)
      = List.replicate cfg.num_episodes
          ((List.range cfg.rounds_per_episode).map (fun j => j + 1)) := by
  obtain ⟨h1, _, _, h4, h5⟩ := playEpisodes_inv cfg b0 b1 cfg.num_episodes
  constructor
  · simpa [play_game] using h4
  · rw [List.eq_replicate_iff]
    constructor
    · simp [play_game, h1]
    · intro x hx
      simp only [play_game, List.mem_map] at hx
      obtain ⟨ep, hep, rfl⟩ := hx
      exact (h5 ep hep).2.1

/-- C7: History projection — play_round appends exactly one entry to each
agent's episode history, the two appended entries are the mirror projections
of the produced round record, and equal history lengths are preserved. -/
theorem c7_history_projection (cfg : EpisodeConfig) (b0 b1 : AgentBehavior)
    (round_num episode_num : Nat) (h0 h1 : List HistEntry)
    (es ts : Int × Int) :
    (play_round cfg b0 b1 round_num episode_num h0 h1 es ts).history_0
      = h0 ++ [histView0 (play_round cfg b0 b1 round_num episode_num h0 h1 es ts).round_data] ∧
    (play_round cfg b0 b1 round_num episode_num h0 h1 es ts).history_1
      = h1 ++ [histView1 (play_round cfg b0 b1 round_num episode_num h0 h1 es ts).round_data] ∧
    (play_round cfg b0 b1 round_num episode_num h0 h1 es ts).history_0.length
      = h0.length + 1 ∧
    (play_round cfg b0 b1 round_num episode_num h0 h1 es ts).history_1.length
      = h1.length + 1 ∧
    (h0.length = h1.length →
      (play_round cfg b0 b1 round_num episode_num h0 h1 es ts).history_0.length
        = (play_round cfg b0 b1 round_num episode_num h0 h1 es ts).history_1.length) := by
  refine ⟨by simp [play_round, histView0], by simp [play_round, histView1],
    by simp [play_round], by simp [play_round], fun h => by simp [play_round, h]⟩

/-- C7 witness: the projection property instantiated at the scripted
scenario, round 0, with empty histories. -/
theorem c7_history_projection_witness :
    (play_round cfg2 scriptA scriptB 0 0 [] [] (0, 0) (0, 0)).history_0.length
      = (play_round cfg2 scriptA scriptB 0 0 [] [] (0, 0) (0, 0)).history_1.length :=
  (c7_history_projection cfg2 scriptA scriptB 0 0 [] [] (0, 0) (0, 0)).2.2.2.2 rfl

/-- C6: Context-reset policy — with reset enabled, play_episode resets each
agent session with keep_system_prompt true and then appends exactly that
agent's own episode reflection (wrapped in the reflection-context banner) to
its context; with reset disabled it performs neither operation. -/
theorem c6_context_reset (cfg : EpisodeConfig) (b0 b1 : AgentBehavior)
    (e : Nat) (t : Int × Int) :
    (cfg.reset_conversation_between_episodes = true →
      (play_episode cfg b0 b1 e t).ops_0
        = [SessionOp.reset true,
           SessionOp.appendContext (reflectionContext e
             (play_episode cfg b0 b1 e t).episode_data.agent_0.reflection)] ∧
      (play_episode cfg b0 b1 e t).ops_1
        = [SessionOp.reset true,
           SessionOp.appendContext (reflectionContext e
             (play_episode cfg b0 b1 e t).episode_data.agent_1.reflection)]) ∧
    (cfg.reset_conversation_between_episodes = false →
      (play_episode cfg b0 b1 e t).ops_0 = [] ∧
      (play_episode cfg b0 b1 e t).ops_1 = []) := by
  constructor
  · intro h
    constructor <;> simp [play_episode, h]
  · intro h
    constructor <;> simp [play_episode, h]

/-- C6 witness: the context-reset policy instantiated at the scripted
scenario (reset enabled), first episode. -/
theorem c6_context_reset_witness :
    (play_episode cfg2 scriptA scriptB 0 (0, 0)).ops_0
      = [SessionOp.reset true,
         SessionOp.appendContext (reflectionContext 0
           (play_episode cfg2 scriptA scriptB 0 (0, 0)).episode_data.agent_0.reflection)] :=
  ((c6_context_reset cfg2 scriptA scriptB 0 (0, 0)).1 rfl).1

/-- C8: Reflection failure handling — when the reflection call returns no
text, the recorded reflection is the fixed sentinel placeholder, there is no
retry (getReflection issues a single backend call by construction), and the
episode still completes with its full round count. -/
theorem c8_reflection_sentinel (cfg : EpisodeConfig) (b0 b1 : AgentBehavior)
    (e : Nat) (t : Int × Int)
    (hb : ∀ (ep : Nat) (h : List HistEntry) (ms os : Int),
      b0.reflect ep h ms os = none) :
    (∀ (b : AgentBehavior) (ep : Nat) (h : List HistEntry) (ms os : Int),
      b.reflect ep h ms os = none →
        getReflection b ep h ms os = "Agent failed to provide reflection") ∧
    (play_episode cfg b0 b1 e t).episode_data.agent_0.reflection
      = "Agent failed to provide reflection" ∧
    (play_episode cfg b0 b1 e t).episode_data.rounds.length
      = cfg.rounds_per_episode := by
  refine ⟨fun b ep h ms os hnone => by simp [getReflection, hnone], ?_, ?_⟩
  · simp [play_episode, getReflection, hb]
  · exact (play_episode_wf cfg b0 b1 e t).1

/-- C8 witness: an agent that never produces a reflection gets the sentinel
recorded and the episode completes. -/
theorem c8_reflection_sentinel_witness :
    (play_episode cfg2 failingAgent scriptB 0 (0, 0)).episode_data.agent_0.reflection
      = "Agent failed to provide reflection" ∧
    (play_episode cfg2 failingAgent scriptB 0 (0, 0)).episode_data.rounds.length
      = cfg2.rounds_per_episode :=
  (c8_reflection_sentinel cfg2 failingAgent scriptB 0 (0, 0)
    (fun _ _ _ _ => rfl)).2

/-- C3 counterexample: an agent whose retry ladder fails but whose last raw
response is non-empty prose gets DEFECT substituted, yet the reasoning text
recorded for the round is that raw agent-authored response verbatim — not
the synthetic failure string — so the claim that the recorded reasoning is
tagged as synthetic/failure-sourced is false as stated. -/
theorem c3_counterexample :
    (stubbornAgent.decide 0 0 [] 0 0).1 = none ∧
    (getAgentDecisionWithRetry stubbornAgent 0 0 [] 0 0).1 = Action.DEFECT ∧
    (getAgentDecisionWithRetry stubbornAgent 0 0 [] 0 0).2
      = (stubbornAgent.decide 0 0 [] 0 0).2 ∧
    (getAgentDecisionWithRetry stubbornAgent 0 0 [] 0 0).2
      ≠ "Failed to respond after retries" := by
  refine ⟨rfl, rfl, rfl, by decide⟩

/-- C3 (amended): whenever the retry ladder yields no extractable decision,
the session substitutes DEFECT and reports it conspicuously (the loud
CRITICAL diagnostic block is printed); the reasoning text recorded is
`response or "Failed to respond after retries"` — the synthetic failure
string only when the raw response is empty, otherwise the agent's raw last
response verbatim. -/
theorem c3_forced_fallback (b : AgentBehavior) (round_num episode_num : Nat)
    (history : List HistEntry) (my_score opp_score : Int)
    (hnone : (b.decide round_num episode_num history my_score opp_score).1 = none) :
    (getAgentDecisionWithRetry b round_num episode_num history my_score opp_score).1
      = Action.DEFECT ∧
    (getAgentDecisionWithRetry b round_num episode_num history my_score opp_score).2
      = pyStrOr (b.decide round_num episode_num history my_score opp_score).2
          ("Failed to respond after retries") ∧
    "CRITICAL: agent failed to provide decision after all retries"
      ∈ criticalDiagnostics b round_num episode_num history my_score opp_score ∧
    criticalDiagnostics b round_num episode_num history my_score opp_score ≠ [] := by
  refine ⟨?_, ?_, ?_, ?_⟩ <;>
    simp [getAgentDecisionWithRetry, criticalDiagnostics, hnone]

/-- C3 witness: the amended fallback behavior instantiated at an agent whose
backend always fails with an empty response. -/
theorem c3_forced_fallback_witness :
    (getAgentDecisionWithRetry failingAgent 0 0 [] 0 0).1 = Action.DEFECT ∧
    (getAgentDecisionWithRetry failingAgent 0 0 [] 0 0).2
      = pyStrOr (failingAgent.decide 0 0 [] 0 0).2 ("Failed to respond after retries") ∧
    "CRITICAL: agent failed to provide decision after all retries"
      ∈ criticalDiagnostics failingAgent 0 0 [] 0 0 ∧
    criticalDiagnostics failingAgent 0 0 [] 0 0 ≠ [] :=
  c3_forced_fallback failingAgent 0 0 [] 0 0 rfl

/-- C4: Cooperation-rate correctness — for every completed episode and each
agent the recorded cooperation_rate equals cooperations divided by
rounds_per_episode and lies in [0,1]; at game end each agent's
overall_cooperation_rate equals its total cooperations divided by the total
round count (num_episodes * rounds_per_episode). -/
theorem c4_cooperation_rate (cfg : EpisodeConfig) (b0 b1 : AgentBehavior)
    (hrpe : 0 < cfg.rounds_per_episode) :
    (∀ (e : Nat) (t : Int × Int),
      (play_episode cfg b0 b1 e t).episode_data.agent_0.cooperation_rate
        = ((play_episode cfg b0 b1 e t).episode_data.agent_0.cooperations : ℚ)
            / (cfg.rounds_per_episode : ℚ) ∧
      0 ≤ (play_episode cfg b0 b1 e t).episode_data.agent_0.cooperation_rate ∧
      (play_episode cfg b0 b1 e t).episode_data.agent_0.cooperation_rate ≤ 1 ∧
      (play_episode cfg b0 b1 e t).episode_data.agent_1.cooperation_rate
        = ((play_episode cfg b0 b1 e t).episode_data.agent_1.cooperations : ℚ)
            / (cfg.rounds_per_episode : ℚ) ∧
      0 ≤ (play_episode cfg b0 b1 e t).episode_data.agent_1.cooperation_rate ∧
      (play_episode cfg b0 b1 e t).episode_data.agent_1.cooperation_rate ≤ 1) ∧
    (play_game cfg b0 b1).agent_0.overall_cooperation_rate
      = ((play_game cfg b0 b1).agent_0.total_cooperations : ℚ)
          / ((cfg.num_episodes * cfg.rounds_per_episode : Nat) : ℚ) ∧
    (play_game cfg b0 b1).agent_1.overall_cooperation_rate
      = ((play_game cfg b0 b1).agent_1.total_cooperations : ℚ)
          / ((cfg.num_episodes * cfg.rounds_per_episode : Nat) : ℚ) := by
  have hq : (0 : ℚ) < (cfg.rounds_per_episode : ℚ) := by exact_mod_cast hrpe
  refine ⟨fun e t => ?_, rfl, rfl⟩
  obtain ⟨_, _, _, _, hc0, hc1, hr0, hr1⟩ := play_episode_wf cfg b0 b1 e t
  refine ⟨hr0, ?_, ?_, hr1, ?_, ?_⟩
  · rw [hr0]; positivity
  · rw [hr0, div_le_one hq]; exact_mod_cast hc0
  · rw [hr1]; positivity
  · rw [hr1, div_le_one hq]; exact_mod_cast hc1

/-- C4 witness: the cooperation-rate property instantiated at the scripted
scenario, first episode. -/
theorem c4_cooperation_rate_witness :
    ((play_episode cfg2 scriptA scriptB 0 (0, 0)).episode_data.agent_0.cooperation_rate
        = ((play_episode cfg2 scriptA scriptB 0 (0, 0)).episode_data.agent_0.cooperations : ℚ)
            / (cfg2.rounds_per_episode : ℚ) ∧
      0 ≤ (play_episode cfg2 scriptA scriptB 0 (0, 0)).episode_data.agent_0.cooperation_rate ∧
      (play_episode cfg2 scriptA scriptB 0 (0, 0)).episode_data.agent_0.cooperation_rate ≤ 1 ∧
      (play_episode cfg2 scriptA scriptB 0 (0, 0)).episode_data.agent_1.cooperation_rate
        = ((play_episode cfg2 scriptA scriptB 0 (0, 0)).episode_data.agent_1.cooperations : ℚ)
            / (cfg2.rounds_per_episode : ℚ) ∧
      0 ≤ (play_episode cfg2 scriptA scriptB 0 (0, 0)).episode_data.agent_1.cooperation_rate ∧
      (play_episode cfg2 scriptA scriptB 0 (0, 0)).episode_data.agent_1.cooperation_rate ≤ 1) ∧
    (play_game cfg2 scriptA scriptB).agent_0.overall_cooperation_rate
      = ((play_game cfg2 scriptA scriptB).agent_0.total_cooperations : ℚ)
          / ((cfg2.num_episodes * cfg2.rounds_per_episode : Nat) : ℚ) ∧
    (play_game cfg2 scriptA scriptB).agent_1.overall_cooperation_rate
      = ((play_game cfg2 scriptA scriptB).agent_1.total_cooperations : ℚ)
          / ((cfg2.num_episodes * cfg2.rounds_per_episode : Nat) : ℚ) :=
  ⟨(c4_cooperation_rate cfg2 scriptA scriptB (by decide)).1 0 (0, 0),
   (c4_cooperation_rate cfg2 scriptA scriptB (by decide)).2.1,
   (c4_cooperation_rate cfg2 scriptA scriptB (by decide)).2.2⟩

/-- C5: Failure-propagation policy — configuration validation failure is
raised at construction, before any episode runs; any game constructed
successfully runs play_game to completion over arbitrary agent behaviors
(including ones whose every decision and reflection fails), returning a
result with all num_episodes episodes. -/
theorem c5_failure_propagation (a0 a1 : AgentBehavior) (cfg : EpisodeConfig) :
    (cfg.validateOk = false →
      EpisodicIPDGame.init a0 a1 cfg
        = Except.error ("Configuration validation failed")) ∧
    (∀ g : EpisodicIPDGame, EpisodicIPDGame.init a0 a1 cfg = Except.ok g →
      (play_game g.config g.agent_0 g.agent_1).episodes.length
        = cfg.num_episodes) := by
  constructor
  · intro h
    simp [EpisodicIPDGame.init, h]
  · intro g hg
    by_cases hv : cfg.validateOk
    · simp only [EpisodicIPDGame.init, hv, if_true, Except.ok.injEq] at hg
      obtain ⟨h1, _, _, _, _⟩ :=
        playEpisodes_inv g.config g.agent_0 g.agent_1 g.config.num_episodes
      have hcfg : g.config = cfg := by rw [← hg]
      rw [hcfg] at h1
      simpa [play_game, hcfg] using h1
    · simp [EpisodicIPDGame.init, hv] at hg

/-- C5 witness: a zero-episode-count configuration is rejected at
construction, and a validated game runs all its episodes. -/
theorem c5_failure_propagation_witness :
    EpisodicIPDGame.init scriptA scriptB cfgBad
      = Except.error ("Configuration validation failed") ∧
    (play_game (EpisodicIPDGame.mk scriptA scriptB cfg2).config
        (EpisodicIPDGame.mk scriptA scriptB cfg2).agent_0
        (EpisodicIPDGame.mk scriptA scriptB cfg2).agent_1).episodes.length
      = cfg2.num_episodes :=
  ⟨(c5_failure_propagation scriptA scriptB cfgBad).1 (by decide),
   (c5_failure_propagation scriptA scriptB cfg2).2
     (EpisodicIPDGame.mk scriptA scriptB cfg2) rfl⟩

/-- C9: Duplicate-ingest idempotence and atomicity — ingesting a document
identical to one already stored (with its required fields present, so the
INSERT is reached) rolls back and returns None (a skip) leaving the database
unchanged; and whenever load_json skips or re-raises, the database state is
exactly the pre-call state, with no partial rows. -/
theorem c9_load_json_atomic (pre : DBState) (filename : String)
    (doc : ResultDoc) (user_name : String) :
    ((∃ row ∈ pre.results, row.raw_json = doc) → doc.timestamp.isSome →
      doc.config.isSome →
      load_json pre filename doc user_name = (pre, LoadOutcome.skipped)) ∧
    ((load_json pre filename doc user_name).2 = LoadOutcome.skipped →
      (load_json pre filename doc user_name).1 = pre) ∧
    (∀ err : DBErr,
      (load_json pre filename doc user_name).2 = LoadOutcome.raised err →
      (load_json pre filename doc user_name).1 = pre) := by
  refine ⟨?_, ?_, ?_⟩
  · intro hdup hts hcfg
    obtain ⟨ts, hts'⟩ := Option.isSome_iff_exists.mp hts
    obtain ⟨cs, hcs⟩ := Option.isSome_iff_exists.mp hcfg
    have hany : pre.results.any (fun row => decide (row.raw_json = doc)) = true := by
      rw [List.any_eq_true]
      obtain ⟨row, hr, he⟩ := hdup
      exact ⟨row, hr, by simp [he]⟩
    simp [load_json, loadJsonBody, hts', hcs, hany]
  · cases h : loadJsonBody pre filename doc user_name with
    | ok v => simp [load_json, h]
    | error e => cases e <;> simp [load_json, h]
  · intro err
    cases h : loadJsonBody pre filename doc user_name with
    | ok v => simp [load_json, h]
    | error e => cases e <;> simp [load_json, h]

/-- C9 witness: re-ingesting the already-stored document doc0 is a skip
that leaves the database unchanged. -/
theorem c9_load_json_atomic_witness :
    load_json pre0 ("episodic_game_1.json") doc0 ("unknown")
      = (pre0, LoadOutcome.skipped) :=
  (c9_load_json_atomic pre0 ("episodic_game_1.json") doc0 ("unknown")).1
    ⟨⟨1, "episodic_game_1.json", "techkgirl", doc0⟩, by simp [pre0], rfl⟩
    rfl rfl

end IPD
